import Mathlib

/-!
Verification development for the checker repository.

The repository contains a manual test harness (test_word_numbering.py) and
fixture generators (create_test_doc.py, create_advanced_test_doc.py) for a
document Structure Analyzer.  The analyzer itself is an external collaborator
whose contract is given by the specification; its components (Numbering
Pattern Matcher, Counter/Sequence Tracker, Level Resolver, Hierarchy Builder,
Structure Report Compiler) are modelled here from the spec, while the harness
functions are embedded from the source of test_word_numbering.py.
-/

namespace Checker

/-- A paragraph as delivered by the Document Parser collaborator:
raw text plus an optional style name. -/
structure Paragraph where
  text : String
  style : Option String := none
  deriving Repr, DecidableEq

/-- The recognized numbering taxonomies. -/
inductive Taxonomy where
  | dottedDecimal
  | bracketedDecimal
  | upperAlpha
  | lowerAlpha
  | roman
  | chineseOrdinal
  | styleImplied
  deriving Repr, DecidableEq

/-- A classified numbering token: taxonomy tag, raw matched label text,
dot-separated numeric segments (dotted-decimal only) and the resolved
ordinal value (single-counter taxonomies only). -/
structure NumberingToken where
  taxonomy : Taxonomy
  label : String
  segments : List Nat := []
  ordinal : Nat := 0
  deriving Repr, DecidableEq

/-! ### Character-level helpers for the pattern matcher -/

/-- Span of leading decimal digits of a character list. -/
def spanDigits : List Char → List Char × List Char
  | [] => ([], [])
  | c :: rest =>
    if c.isDigit then
      let (d, r) := spanDigits rest
      (c :: d, r)
    else ([], c :: rest)

/-- Numeric value of a digit run. -/
def digitsToNat (ds : List Char) : Nat :=
  ds.foldl (fun a c => 10 * a + (c.toNat - 48)) 0

/-- Consume further dot-separated digit groups after the first one
(fuel-bounded loop over the remaining characters). -/
def moreGroups : Nat → List Char → List Nat → List Nat × List Char
  | 0, cs, acc => (acc, cs)
  | fuel + 1, cs, acc =>
    match cs with
    | '.' :: rest =>
      let (ds, r) := spanDigits rest
      if ds.isEmpty then (acc, cs)
      else moreGroups fuel r (acc ++ [digitsToNat ds])
    | _ => (acc, cs)

/-- After a numbering label, the text must continue with whitespace
(or end); the returned title is the remainder with leading whitespace
stripped. -/
def titleAfter (cs : List Char) : Option String :=
  match cs with
  | [] => some ""
  | c :: _ =>
    if c.isWhitespace then some ((cs.dropWhile Char.isWhitespace).asString)
    else none

/-- Modelled from the spec: dotted-decimal recognition of the Numbering
Pattern Matcher, which is not part of the repository sources.  A leading
run N(.N)* of digit groups separated by dots, optionally followed by a
trailing dot, then whitespace.  Returns the segment list, the raw label
and the remaining title text. -/
def matchDotted (s : String) : Option (List Nat × String × String) :=
  let cs := s.toList
  let (ds, r) := spanDigits cs
  if ds.isEmpty then none
  else
    let (groups, r2) := moreGroups cs.length r [digitsToNat ds]
    let r3 := match r2 with
      | '.' :: rest => rest
      | _ => r2
    match titleAfter r3 with
    | none => none
    | some title =>
      let label := (cs.take (cs.length - r3.length)).asString
      some (groups, label, title)

/-- Modelled from the spec: bracketed-decimal recognition, leading (N). -/
def matchBracketed (s : String) : Option (Nat × String × String) :=
  match s.toList with
  | '(' :: rest =>
    let (ds, r) := spanDigits rest
    if ds.isEmpty then none
    else
      match r with
      | ')' :: r2 =>
        match titleAfter r2 with
        | none => none
        | some title =>
          some (digitsToNat ds, ('(' :: ds ++ [')']).asString, title)
      | _ => none
  | _ => none

/-- Value of a Chinese ordinal-numeral character from the closed vocabulary. -/
def chineseNumeralVal (c : Char) : Option Nat :=
  if c = '一' then some 1
  else if c = '二' then some 2
  else if c = '三' then some 3
  else if c = '四' then some 4
  else if c = '五' then some 5
  else if c = '六' then some 6
  else if c = '七' then some 7
  else if c = '八' then some 8
  else if c = '九' then some 9
  else if c = '十' then some 10
  else if c.isDigit then some (c.toNat - 48)
  else none

/-- The closed vocabulary of Chinese ordinal suffix words. -/
def chineseSuffix (c : Char) : Bool :=
  c = '章' || c = '节' || c = '条' || c = '款' || c = '篇' || c = '部'

/-- Modelled from the spec: Chinese ordinal phrase recognition — fixed
ordinal-word head, a digit or ordinal-numeral character, and a fixed
suffix word, as a closed vocabulary. -/
def matchChinese (s : String) : Option (Nat × String × String) :=
  match s.toList with
  | '第' :: n :: suf :: rest =>
    match chineseNumeralVal n with
    | none => none
    | some v =>
      if chineseSuffix suf then
        some (v, ['第', n, suf].asString, (rest.dropWhile Char.isWhitespace).asString)
      else none
  | _ => none

/-! ### Roman numerals -/

/-- Value of a single roman-numeral character (0 when not roman). -/
def romanVal (c : Char) : Nat :=
  if c = 'I' then 1
  else if c = 'V' then 5
  else if c = 'X' then 10
  else if c = 'L' then 50
  else if c = 'C' then 100
  else if c = 'D' then 500
  else if c = 'M' then 1000
  else 0

/-- Whether a character is a roman-numeral character. -/
def isRomanChar (c : Char) : Bool :=
  romanVal c ≠ 0

/-- Subtractive left-to-right evaluation of a roman-character run. -/
def fromRoman : List Char → Nat
  | [] => 0
  | [c] => romanVal c
  | c1 :: c2 :: rest =>
    if romanVal c1 < romanVal c2 then fromRoman (c2 :: rest) - romanVal c1
    else romanVal c1 + fromRoman (c2 :: rest)

/-- Greedy value/string pairs used to render a roman numeral. -/
def romanPairs : List (Nat × String) :=
  [(1000, "M"), (900, "CM"), (500, "D"), (400, "CD"),
   (100, "C"), (90, "XC"), (50, "L"), (40, "XL"),
   (10, "X"), (9, "IX"), (5, "V"), (4, "IV"), (1, "I")]

/-- Fuel-bounded greedy rendering of a natural number as a roman numeral. -/
def toRomanAux : Nat → Nat → String
  | 0, _ => ""
  | fuel + 1, n =>
    if n = 0 then ""
    else
      match romanPairs.find? (fun pr => pr.1 ≤ n) with
      | some (v, str) => str ++ toRomanAux fuel (n - v)
      | none => ""

/-- Canonical roman rendering of a natural number. -/
def toRoman (n : Nat) : String :=
  toRomanAux n n

/-- Modelled from the spec: roman-numeral recognition — a leading maximal
run of roman characters that parses as a well-formed roman numeral at most
200, followed by a dot and whitespace.  The Bool flags an ambiguous
single-character run (also a valid alphabetic token). -/
def matchRoman (s : String) : Option (Nat × String × String × Bool) :=
  let cs := s.toList
  let (run, rest) := cs.span isRomanChar
  if run.isEmpty then none
  else
    match rest with
    | '.' :: rest2 =>
      match titleAfter rest2 with
      | none => none
      | some title =>
        let v := fromRoman run
        if 1 ≤ v ∧ v ≤ 200 ∧ (toRoman v).toList = run then
          some (v, (run ++ ['.']).asString, title, run.length = 1)
        else none
    | _ => none

/-- Modelled from the spec: alphabetic recognition — a single leading
letter followed by a dot or closing parenthesis and whitespace; the case
selects the upper-alpha or lower-alpha taxonomy.  Returns the taxonomy,
the 1-based alphabet position, the label and the title. -/
def matchAlpha (s : String) : Option (Taxonomy × Nat × String × String) :=
  match s.toList with
  | c :: p :: rest =>
    if c.isUpper ∧ (p = '.' ∨ p = ')') then
      match titleAfter rest with
      | none => none
      | some title => some (.upperAlpha, c.toNat - 64, [c, p].asString, title)
    else if c.isLower ∧ (p = '.' ∨ p = ')') then
      match titleAfter rest with
      | none => none
      | some title => some (.lowerAlpha, c.toNat - 96, [c, p].asString, title)
    else none
  | _ => none

/-- Modelled from the spec: the style-implied depth of a paragraph style
name — for the recognized list style family, the embedded suffix integer,
defaulting to 1 when the suffix is absent. -/
def styleDepth : Option String → Option Nat
  | none => none
  | some s =>
    if s.startsWith "List Number" then
      let suffix := (s.toList.drop 11).dropWhile Char.isWhitespace
      let (ds, _) := spanDigits suffix
      if ds.isEmpty then some 1 else some (digitsToNat ds)
    else none

/-! ### Counter/Sequence Tracker state -/

/-- Modelled from the spec: the LevelCounterState of the Counter/Sequence
Tracker — per-level current ordinal value and taxonomy in force; an entry
at position i holds the counter for level i+1; an unset counter is none.
The state is scoped to one analysis call. -/
abbrev LevelCounterState : Type :=
  List (Option (Taxonomy × Nat))

/-- Whether a roman sequence is currently open somewhere in the tracker
context. -/
def romanOpen (st : LevelCounterState) : Bool :=
  st.any (fun e =>
    match e with
    | some (.roman, _) => true
    | _ => false)

/-- The 1-based level of the deepest open counter with the given taxonomy,
if any. -/
def deepestWith (st : LevelCounterState) (tax : Taxonomy) : Option Nat :=
  (List.range st.length).foldl
    (fun acc i =>
      match st.get? i with
      | some (some (t, _)) => if t = tax then some (i + 1) else acc
      | _ => acc)
    none

/-- The 1-based level of the deepest open counter, if any. -/
def deepestOpen (st : LevelCounterState) : Option Nat :=
  (List.range st.length).foldl
    (fun acc i =>
      match st.get? i with
      | some (some _) => some (i + 1)
      | _ => acc)
    none

/-- Truncate or pad a counter state to exactly n entries (padding with
unset counters). -/
def padTo (st : LevelCounterState) (n : Nat) : LevelCounterState :=
  st.take n ++ List.replicate (n - (st.take n).length) (none : Option (Taxonomy × Nat))

/-- Modelled from the spec: the Counter/Sequence Tracker update — a
dotted-decimal token sets each segment depth to the observed value; a
single-counter token sets the counter at the resolved level (a synthesized
style-implied value increments the prior run, or starts at 1); entering a
level resets all counters for strictly deeper levels to unset, while
shallower counters keep their prior values. -/
def updateCounters (st : LevelCounterState) (tok : NumberingToken) (lvl : Nat) :
    LevelCounterState :=
  match tok.taxonomy with
  | .dottedDecimal => tok.segments.map (fun v => some (.dottedDecimal, v))
  | _ =>
    let v : Nat :=
      match tok.taxonomy with
      | .styleImplied =>
        match (st.get? (lvl - 1)).join with
        | some (.styleImplied, n) => n + 1
        | _ => 1
      | _ => tok.ordinal
    padTo st (lvl - 1) ++ [some (tok.taxonomy, v)]

/-! ### Numbering Pattern Matcher -/

/-- Modelled from the spec: the Numbering Pattern Matcher, which is not
part of the repository sources.  Classifies a paragraph's leading text
(and/or style name) into zero-or-one numbering token together with the
remaining title text, with recognition precedence dotted-decimal,
bracketed-decimal, Chinese ordinal, roman, alphabetic, style-implied.
It has no side effects; the flag reports whether a roman sequence is open
in the current tracker context, used only to resolve a token that is
simultaneously a valid single-letter alphabetic and a valid roman numeral
(roman when open, alphabetic otherwise). -/
def matchNumbering (rOpen : Bool) (p : Paragraph) :
    Option NumberingToken × String :=
  match matchDotted p.text with
  | some (segs, label, title) =>
    (some { taxonomy := .dottedDecimal, label := label, segments := segs }, title)
  | none =>
  match matchBracketed p.text with
  | some (n, label, title) =>
    (some { taxonomy := .bracketedDecimal, label := label, ordinal := n }, title)
  | none =>
  match matchChinese p.text with
  | some (n, label, title) =>
    (some { taxonomy := .chineseOrdinal, label := label, ordinal := n }, title)
  | none =>
  match matchRoman p.text with
  | some (n, label, title, single) =>
    if single && !rOpen then
      match matchAlpha p.text with
      | some (tax, n2, label2, title2) =>
        (some { taxonomy := tax, label := label2, ordinal := n2 }, title2)
      | none =>
        (some { taxonomy := .roman, label := label, ordinal := n }, title)
    else
      (some { taxonomy := .roman, label := label, ordinal := n }, title)
  | none =>
  match matchAlpha p.text with
  | some (tax, n, label, title) =>
    (some { taxonomy := tax, label := label, ordinal := n }, title)
  | none =>
  match styleDepth p.style with
  | some _ =>
    (some { taxonomy := .styleImplied, label := "" }, p.text)
  | none => (none, p.text)

/-! ### Level Resolver -/

/-- Modelled from the spec: the Level Resolver, which is not part of the
repository sources.  Dotted-decimal tokens resolve to their segment count,
ignoring style hints; otherwise a style-implied depth is authoritative,
else the level defaults to the open context the taxonomy is consistent
with (one deeper than the deepest open context for a new taxonomy),
falling back to level 1. -/
def resolveLevel (st : LevelCounterState) (p : Paragraph) (tok : NumberingToken) :
    Nat :=
  match tok.taxonomy with
  | .dottedDecimal => tok.segments.length
  | .styleImplied => (styleDepth p.style).getD 1
  | _ =>
    match styleDepth p.style with
    | some d => d
    | none =>
      match deepestWith st tok.taxonomy with
      | some l => l
      | none =>
        match deepestOpen st with
        | some d => d + 1
        | none => 1

/-! ### Hierarchy Builder and analysis entry point -/

/-- A built heading: position in the paragraph stream, resolved level,
title with the label stripped, raw numbering label (empty for synthesized
tokens), and the sequence index of the nearest preceding heading one level
up. -/
structure Heading where
  seqIndex : Nat
  level : Nat
  title : String
  numbering : String
  parent : Option Nat
  deriving Repr, DecidableEq

/-- The level of the immediately preceding heading, 0 when none exists. -/
def prevLevel (hs : List Heading) : Nat :=
  ((hs.getLast?).map Heading.level).getD 0

/-- Modelled from the spec: the level clamp of the §3 invariant — a level
below 1 is raised to 1, and a jump of more than one above the preceding
heading's level is clamped to that level plus one; the Bool reports
whether a clamp anomaly occurred. -/
def clampLevel (prev lvl : Nat) : Nat × Bool :=
  let l := max lvl 1
  if prev ≠ 0 ∧ prev + 1 < l then (prev + 1, true) else (l, false)

/-- The nearest preceding heading with level exactly one less, found by
walking backward through the already-built headings. -/
def findParent (hs : List Heading) (lvl : Nat) : Option Nat :=
  if lvl ≤ 1 then none
  else (hs.reverse.find? (fun h => h.level + 1 = lvl)).map Heading.seqIndex

/-- The accumulated state of the single linear scan: tracker counters,
built headings, anomaly count and next sequence index. -/
structure ScanAcc where
  counters : LevelCounterState
  headings : List Heading
  anomalies : Nat
  idx : Nat
  deriving Repr, DecidableEq

/-- Modelled from the spec: one step of the single-pass scan — match the
paragraph, resolve and clamp its level, update the tracker and append the
heading; a paragraph with no taxonomy is skipped. -/
def scanStep (st : ScanAcc) (p : Paragraph) : ScanAcc :=
  match matchNumbering (romanOpen st.counters) p with
  | (none, _) => { st with idx := st.idx + 1 }
  | (some tok, title) =>
    let raw := resolveLevel st.counters p tok
    let c := clampLevel (prevLevel st.headings) raw
    let h : Heading :=
      { seqIndex := st.idx, level := c.1, title := title,
        numbering := tok.label, parent := findParent st.headings c.1 }
    { counters := updateCounters st.counters tok c.1,
      headings := st.headings ++ [h],
      anomalies := st.anomalies + (if c.2 then 1 else 0),
      idx := st.idx + 1 }

/-- Modelled from the spec: the full single linear pass over the paragraph
stream, starting from a fresh LevelCounterState. -/
def scanParagraphs (ps : List Paragraph) : ScanAcc :=
  ps.foldl scanStep { counters := [], headings := [], anomalies := 0, idx := 0 }

/-! ### Structure Report Compiler -/

/-- The level histogram: the distinct levels in order of first appearance,
each with its number of occurrences. -/
def histogram (hs : List Heading) : List (Nat × Nat) :=
  let levels := hs.map Heading.level
  (levels.foldl (fun acc l => if acc.contains l then acc else acc ++ [l]) []).map
    (fun l => (l, levels.count l))

/-- The number of headings carrying a non-empty numbering label. -/
def coverageCount (hs : List Heading) : Nat :=
  hs.foldl (fun n h => if h.numbering = "" then n else n + 1) 0

/-- The report produced once per analysis call: ordered headings, derived
level histogram, numbering-coverage count, and the number of recorded
anomalies. -/
structure StructureReport where
  headings : List Heading
  levelCounts : List (Nat × Nat)
  numberingCoverage : Nat
  anomalies : Nat
  deriving Repr, DecidableEq

/-- Modelled from the spec: the Structure Report Compiler — pure
aggregation over the final heading sequence. -/
def compileReport (hs : List Heading) (anomalies : Nat) : StructureReport :=
  { headings := hs, levelCounts := histogram hs,
    numberingCoverage := coverageCount hs, anomalies := anomalies }

/-- The analyzer's input: the ordered paragraph sequence plus the
document-level flag distinguishing a parse failure from a document with
zero paragraphs. -/
structure ParsedInput where
  parseFailed : Bool
  paragraphs : List Paragraph
  deriving Repr, DecidableEq

/-- The single error kind that aborts an analysis call. -/
inductive AnalyzeError where
  | parseFailure
  deriving Repr, DecidableEq

/-- Modelled from the spec: the analysis entry point of the Structure
Analyzer, which is not part of the repository sources.  It fails with
ParseFailure exactly when the input signals a prior parse failure, and
otherwise runs the single-pass scan and compiles the report. -/
def analyzeStructure (input : ParsedInput) :
    Except AnalyzeError StructureReport :=
  if input.parseFailed then .error .parseFailure
  else
    let st := scanParagraphs input.paragraphs
    .ok (compileReport st.headings st.anomalies)

/-- Analyzing a sequence of documents: one independent call per document. -/
def analyzeMany (inputs : List ParsedInput) :
    List (Except AnalyzeError StructureReport) :=
  inputs.map analyzeStructure

/-! ### The test harness, embedded from test_word_numbering.py

The harness exercises the two external collaborators.  Their return values
and raised exceptions are inputs of the embedding: a FileEnv records, for
one file name in the loop, whether the file exists and what each
collaborator call would return or raise. -/

/-- A Python exception value, carrying its message. -/
inductive PyExn where
  | exn (msg : String)
  deriving Repr, DecidableEq

/-- The value returned by parser.parse_document, as inspected by the
harness: Python truthiness, whether the content key is present, and the
content string. -/
structure ParsedPayload where
  truthy : Bool
  hasContent : Bool
  content : String
  deriving Repr, DecidableEq

/-- One heading dict as inspected by the harness: each key may be absent. -/
structure HeadingDict where
  level : Option Int
  title : Option String
  numbering : Option String
  deriving Repr, DecidableEq

/-- The value returned by analyzer.analyze_structure, as inspected by the
harness: Python truthiness, whether the headings key is present, and the
heading dicts. -/
structure StructurePayload where
  truthy : Bool
  hasHeadings : Bool
  headings : List HeadingDict
  deriving Repr, DecidableEq

/-- The environment one loop iteration of the harness runs against.  -/
structure FileEnv where
  fileExists : Bool
  parseResult : Except PyExn ParsedPayload
  analyzeResult : Except PyExn StructurePayload
  deriving Repr

/-- Embedded from test_word_numbering.py line 56: heading.get with
default 0 for a possibly missing level key. -/
def headingLevelOf (h : HeadingDict) : Int :=
  h.level.getD 0

/-- Embedded from test_word_numbering.py line 59: two spaces per level
above one when the level is positive, no indent otherwise. -/
def indentFor (level : Int) : String :=
  if level > 0 then String.mk (List.replicate ((level - 1).toNat * 2) ' ') else ""

/-- Embedded from test_word_numbering.py line 66: the per-heading levels,
defaulting to 0. -/
def harnessLevels (hs : List HeadingDict) : List Int :=
  hs.map headingLevelOf

/-- Embedded from test_word_numbering.py line 67: the maximum level,
guarded to 0 on an empty list. -/
def harnessMaxLevel (levels : List Int) : Int :=
  match levels with
  | [] => 0
  | l :: ls => ls.foldl max l

/-- One update of the level-count dict (test_word_numbering.py line 70). -/
def bumpCount (acc : List (Int × Nat)) (l : Int) : List (Int × Nat) :=
  if acc.any (fun pr => pr.1 == l) then
    acc.map (fun pr => if pr.1 == l then (pr.1, pr.2 + 1) else pr)
  else acc ++ [(l, 1)]

/-- Embedded from test_word_numbering.py lines 68-70: the level → count
dict built over the level list, in insertion order. -/
def harnessLevelCounts (levels : List Int) : List (Int × Nat) :=
  levels.foldl bumpCount []

/-- The count stored for a key in the level-count dict, 0 when absent. -/
def lookupCount (acc : List (Int × Nat)) (l : Int) : Nat :=
  ((acc.find? (fun pr => pr.1 == l)).map Prod.snd).getD 0

/-- Embedded from test_word_numbering.py lines 54-88: the display section
of one loop iteration, rendered as a list of output lines.  Total: every
dict access uses a default, and the empty-levels case is guarded. -/
def displayResults (pc : ParsedPayload) (st : StructurePayload) : List String :=
  let hs := st.headings
  let perHeading := hs.map (fun h =>
    let level := headingLevelOf h
    let title := h.title.getD ""
    let numbering := h.numbering.getD ""
    let indent := indentFor level
    (indent ++ "级别 " ++ toString level ++ ": " ++ title, numbering))
  let levels := harnessLevels hs
  let counts := harnessLevelCounts levels
  let withNumbering := hs.filter (fun h => !(h.numbering.getD "" == ""))
  let contentLines := ((pc.content.splitOn "\x0a").take 20).filter
    (fun l => !(l.trim == ""))
  (perHeading.map Prod.fst)
    ++ (counts.map (fun pr => "级别 " ++ toString pr.1 ++ ": " ++ toString pr.2 ++ " 个标题"))
    ++ ["带编号的标题: " ++ toString withNumbering.length ++ " 个"]
    ++ ["最大级别: " ++ toString (harnessMaxLevel levels)]
    ++ contentLines.map String.trim

/-- Embedded from test_word_numbering.py lines 33-89: the body of the
try block of one loop iteration.  A collaborator exception propagates;
falsy or key-missing collaborator results end the iteration early with a
message. -/
def processFileTry (env : FileEnv) : Except PyExn (List String) := do
  let pc ← env.parseResult
  if !pc.truthy || !pc.hasContent then
    pure ["文档解析失败或内容为空"]
  else do
    let st ← env.analyzeResult
    if !st.truthy || !st.hasHeadings then
      pure ["结构分析失败"]
    else
      pure (displayResults pc st)

/-- Embedded from test_word_numbering.py lines 33-93: one loop iteration
with its try/except — any exception from the body is caught and turned
into an error message, and the loop continues. -/
def processFile (env : FileEnv) : List String :=
  match processFileTry env with
  | .ok lines => lines
  | .error (.exn msg) => ["测试过程中出错: " ++ msg]

/-- Embedded from test_word_numbering.py lines 24-31 and 33-93: one
iteration of the file loop — a missing file is reported and skipped, any
other file runs the guarded body.  The exception monad records whether the
iteration raises. -/
def harnessStep (acc : List (List String)) (env : FileEnv) :
    Except PyExn (List (List String)) :=
  if !env.fileExists then pure (acc ++ [["文件不存在"]])
  else pure (acc ++ [processFile env])

/-- Embedded from test_word_numbering.py lines 24-93: the whole harness
loop over the file list.  The result is in the exception monad so that
any uncaught exception of the loop body would surface as an error value. -/
def test_word_numbering (envs : List FileEnv) :
    Except PyExn (List (List String)) :=
  envs.foldlM harnessStep []

/-! ## Concrete inputs used in the theorems -/

/-- The paragraph sequence of Scenario D. -/
def scenarioD : List Paragraph :=
  [{ text := "1. 主要功能" }, { text := "1.1 用户管理" },
   { text := "1.1.1 注册功能" }, { text := "2. 系统设置" }]

/-- Scenario D extended by a subsequent level-2 dotted token. -/
def scenarioDext : List Paragraph :=
  scenarioD ++ [{ text := "2.1 基础配置" }]

/-- A two-paragraph document whose second dotted token jumps from level 1
to level 3. -/
def jumpDoc : List Paragraph :=
  [{ text := "1. 总则" }, { text := "1.1.1 细则" }]

/-! ## Theorems -/

/-- C4: analyzing the empty paragraph sequence (with the parse-failure
flag clear) returns a StructureReport with zero Headings, an empty level
histogram and a numbering-coverage count of zero, and no error. -/
theorem analyze_empty_is_empty_report :
    analyzeStructure { parseFailed := false, paragraphs := [] } =
      .ok { headings := [], levelCounts := [], numberingCoverage := 0,
            anomalies := 0 } := by
  rfl

/-- C6: on Scenario D the analyzer produces heading levels [1, 2, 3, 1];
after the level-1 token reappears, the tracker counters for levels 2 and 3
are unset, and appending the dotted token 2.1 yields a level-2 heading
whose level-2 counter restarts at 1. -/
theorem scenarioD_levels_and_counter_reset :
    (analyzeStructure { parseFailed := false, paragraphs := scenarioD }).map
        (fun r => r.headings.map Heading.level) = .ok [1, 2, 3, 1] ∧
    (scanParagraphs scenarioD).counters.getD 1 none = none ∧
    (scanParagraphs scenarioD).counters.getD 2 none = none ∧
    (analyzeStructure { parseFailed := false, paragraphs := scenarioDext }).map
        (fun r => r.headings.map (fun h => (h.level, h.numbering))) =
      .ok [(1, "1."), (2, "1.1"), (3, "1.1.1"), (1, "2."), (2, "2.1")] ∧
    (scanParagraphs scenarioDext).counters.getD 1 none =
      some (Taxonomy.dottedDecimal, 1) := by
  refine ⟨?_, ?_, ?_, ?_, ?_⟩ <;> rfl

/-- C8: the Numbering Pattern Matcher is a pure function of the paragraph
and the roman-open flag of the tracker context, and a token that is
simultaneously a valid single-letter alphabetic and a valid roman numeral
(a lone I) is classified as roman exactly when a roman sequence is open,
and as alphabetic otherwise — independently of the paragraph style. -/
theorem ambiguous_single_roman_resolution (rOpen : Bool) (style : Option String) :
    ((matchNumbering rOpen { text := "I. 第一阶段", style := style }).1.map
        NumberingToken.taxonomy) =
      some (if rOpen then Taxonomy.roman else Taxonomy.upperAlpha) := by
  cases rOpen <;> rfl

/-- C3: the analysis entry point fails, with the ParseFailure error and no
report, exactly when the input stream signals that the source document
could not be decoded; otherwise it returns a StructureReport. -/
theorem parse_failure_aborts_exactly (input : ParsedInput) :
    (input.parseFailed = true →
      analyzeStructure input = .error .parseFailure) ∧
    (input.parseFailed = false →
      ∃ r, analyzeStructure input = .ok r) := by
  constructor
  · intro h
    simp [analyzeStructure, h]
  · intro h
    refine ⟨compileReport (scanParagraphs input.paragraphs).headings
      (scanParagraphs input.paragraphs).anomalies, ?_⟩
    simp [analyzeStructure, h]

/-- Witness for C3 at concrete inputs: a parse-failed input aborts with
ParseFailure, and an intact one-paragraph input yields a report. -/
theorem parse_failure_aborts_exactly_witness :
    analyzeStructure { parseFailed := true, paragraphs := [] } =
        .error .parseFailure ∧
    ∃ r, analyzeStructure
        { parseFailed := false, paragraphs := [{ text := "1. 总则" }] } = .ok r :=
  ⟨(parse_failure_aborts_exactly { parseFailed := true, paragraphs := [] }).1 rfl,
   (parse_failure_aborts_exactly
      { parseFailed := false, paragraphs := [{ text := "1. 总则" }] }).2 rfl⟩

/-- C7: the analysis entry point is a deterministic function of its input
paragraph sequence with no dependence on prior calls: analyzing the same
input twice in a row yields two identical reports, and the result of the
last call in any call sequence depends only on its own input. -/
theorem analyzer_deterministic (pre1 pre2 : List ParsedInput) (q : ParsedInput) :
    analyzeMany [q, q] = [analyzeStructure q, analyzeStructure q] ∧
    (analyzeMany (pre1 ++ [q])).getLast? = some (analyzeStructure q) ∧
    (analyzeMany (pre1 ++ [q])).getLast? = (analyzeMany (pre2 ++ [q])).getLast? := by
  refine ⟨rfl, ?_, ?_⟩ <;> simp [analyzeMany]

/-- C1: whenever a paragraph's leading text matches the dotted-decimal
pattern N(.N)*, the matcher classifies it as dotted-decimal with exactly
the matched digit groups as segments, and the Level Resolver returns the
number of digit groups as the level, for every tracker state and every
(possibly style-carrying) paragraph — any style-implied depth is ignored. -/
theorem dotted_level_is_segment_count (rOpen : Bool) (st : LevelCounterState)
    (p : Paragraph) (tok : NumberingToken) (title : String)
    (segs : List Nat) (label dtitle : String)
    (hd : matchDotted p.text = some (segs, label, dtitle))
    (hm : matchNumbering rOpen p = (some tok, title)) :
    tok.taxonomy = Taxonomy.dottedDecimal ∧ tok.segments = segs ∧
      resolveLevel st p tok = segs.length := by
  unfold matchNumbering at hm
  rw [hd] at hm
  obtain ⟨htok, -⟩ := Prod.mk.injEq .. ▸ hm
  cases htok
  exact ⟨rfl, rfl, rfl⟩

/-- Witness for C1: the paragraph 1.1.2 概述, even under a level-1 list
style, resolves to level 3 from an empty tracker state. -/
theorem dotted_level_is_segment_count_witness :
    ({ taxonomy := Taxonomy.dottedDecimal, label := "1.1.2",
       segments := [1, 1, 2] } : NumberingToken).taxonomy =
        Taxonomy.dottedDecimal ∧
    ({ taxonomy := Taxonomy.dottedDecimal, label := "1.1.2",
       segments := [1, 1, 2] } : NumberingToken).segments = [1, 1, 2] ∧
    resolveLevel [] { text := "1.1.2 概述", style := some "List Number" }
      { taxonomy := Taxonomy.dottedDecimal, label := "1.1.2",
        segments := [1, 1, 2] } = 3 :=
  dotted_level_is_segment_count false []
    { text := "1.1.2 概述", style := some "List Number" }
    { taxonomy := Taxonomy.dottedDecimal, label := "1.1.2", segments := [1, 1, 2] }
    "概述" [1, 1, 2] "1.1.2" "概述" rfl rfl

/-- The coverage fold counts exactly the headings whose numbering label is
non-empty, on top of any starting value. -/
theorem coverage_foldl (hs : List Heading) (n : Nat) :
    hs.foldl (fun n h => if h.numbering = "" then n else n + 1) n =
      n + (hs.filter (fun h => !(h.numbering == ""))).length := by
  induction hs generalizing n with
  | nil => simp
  | cons h t ih =>
    by_cases hh : h.numbering = ""
    · simp [List.foldl_cons, hh, ih]
    · simp only [List.foldl_cons, hh, if_neg, List.filter_cons]
      simp [hh, ih]
      omega

/-- C5: in every StructureReport produced by an analysis call, the
numbering-coverage count equals the number of Headings whose numbering
label is a non-empty string, hence is at most the number of Headings. -/
theorem coverage_counts_nonempty_labels (input : ParsedInput)
    (r : StructureReport) (h : analyzeStructure input = .ok r) :
    r.numberingCoverage =
        (r.headings.filter (fun h => !(h.numbering == ""))).length ∧
    r.numberingCoverage ≤ r.headings.length := by
  unfold analyzeStructure at h
  by_cases hp : input.parseFailed
  · simp [hp] at h
  · simp only [hp, if_neg, Bool.false_eq_true, ite_false] at h
    obtain rfl := (Except.ok.injEq .. ▸ h)
    constructor
    · simpa [compileReport, coverageCount] using
        coverage_foldl (scanParagraphs input.paragraphs).headings 0
    · simp only [compileReport, coverageCount]
      rw [coverage_foldl]
      simpa using List.length_filter_le _ _

/-- Witness for C5 on the Scenario D input. -/
theorem coverage_counts_nonempty_labels_witness :
    (compileReport (scanParagraphs scenarioD).headings
        (scanParagraphs scenarioD).anomalies).numberingCoverage =
      ((compileReport (scanParagraphs scenarioD).headings
          (scanParagraphs scenarioD).anomalies).headings.filter
        (fun h => !(h.numbering == ""))).length ∧
    (compileReport (scanParagraphs scenarioD).headings
        (scanParagraphs scenarioD).anomalies).numberingCoverage ≤
      (compileReport (scanParagraphs scenarioD).headings
          (scanParagraphs scenarioD).anomalies).headings.length :=
  coverage_counts_nonempty_labels { parseFailed := false, paragraphs := scenarioD }
    (compileReport (scanParagraphs scenarioD).headings
      (scanParagraphs scenarioD).anomalies) rfl

/-! ## The §3 level invariants -/

/-- The level invariants over a built heading sequence: every level is at
least 1, and a level never exceeds its predecessor's level by more than 1. -/
def levelsOk (hs : List Heading) : Prop :=
  (∀ h ∈ hs, 1 ≤ h.level) ∧
    List.Chain' (fun a b => b.level ≤ a.level + 1) hs

/-- The clamp always yields a positive level. -/
theorem clampLevel_pos (prev lvl : Nat) : 1 ≤ (clampLevel prev lvl).1 := by
  simp only [clampLevel]
  split
  · omega
  · exact Nat.le_max_right _ _

/-- Against a real preceding level, the clamp never exceeds it by more
than one. -/
theorem clampLevel_le (prev lvl : Nat) (h : prev ≠ 0) :
    (clampLevel prev lvl).1 ≤ prev + 1 := by
  simp only [clampLevel]
  split
  · omega
  · next hc =>
    push_neg at hc
    exact hc h

/-- One scan step preserves the level invariants. -/
theorem levelsOk_scanStep (st : ScanAcc) (p : Paragraph)
    (h : levelsOk st.headings) : levelsOk (scanStep st p).headings := by
  rcases hm : matchNumbering (romanOpen st.counters) p with ⟨otok, title⟩
  cases otok with
  | none =>
    simpa only [scanStep, hm] using h
  | some tok =>
    simp only [scanStep, hm]
    constructor
    · intro x hx
      rcases List.mem_append.1 hx with hx | hx
      · exact h.1 x hx
      · rw [List.mem_singleton] at hx
        subst hx
        exact clampLevel_pos _ _
    · rw [List.chain'_append]
      refine ⟨h.2, List.chain'_singleton _, ?_⟩
      intro x hxl y hyh
      simp only [List.head?_cons, Option.mem_def, Option.some.injEq] at hyh
      subst hyh
      have hx1 : 1 ≤ x.level := by
        obtain ⟨hne, hxe⟩ := List.mem_getLast?_eq_getLast hxl
        subst hxe
        exact h.1 _ (List.getLast_mem hne)
      rw [Option.mem_def] at hxl
      have hp : prevLevel st.headings = x.level := by
        simp [prevLevel, hxl]
      simpa only [hp] using clampLevel_le x.level _ (by omega)

/-- The whole scan preserves the level invariants. -/
theorem levelsOk_scan (ps : List Paragraph) (st : ScanAcc)
    (h : levelsOk st.headings) : levelsOk (ps.foldl scanStep st).headings := by
  induction ps generalizing st with
  | nil => exact h
  | cons p t ih => exact ih _ (levelsOk_scanStep st p h)

/-- C2: every analysis of an intact document succeeds with a report in
which each Heading's level is at least 1 and no Heading's level exceeds
the preceding Heading's level by more than 1 (decreases of any amount are
allowed); on a document whose dotted tokens jump from level 1 to level 3,
the jump is clamped to level 2 and recorded as one anomaly rather than
raised as an error. -/
theorem heading_level_invariants :
    (∀ ps : List Paragraph, ∃ r,
      analyzeStructure { parseFailed := false, paragraphs := ps } = .ok r ∧
      (∀ h ∈ r.headings, 1 ≤ h.level) ∧
      List.Chain' (fun a b => b.level ≤ a.level + 1) r.headings) ∧
    (analyzeStructure { parseFailed := false, paragraphs := jumpDoc }).map
        (fun r => (r.headings.map Heading.level, r.anomalies)) =
      .ok ([1, 2], 1) := by
  constructor
  · intro ps
    refine ⟨compileReport (scanParagraphs ps).headings
      (scanParagraphs ps).anomalies, rfl, ?_⟩
    have hOk : levelsOk ([] : List Heading) :=
      ⟨fun x hx => absurd hx (List.not_mem_nil x), List.chain'_nil⟩
    exact levelsOk_scan ps _ hOk
  · rfl

/-- Witness for C2 on the extended Scenario D input. -/
theorem heading_level_invariants_witness :
    ∃ r, analyzeStructure { parseFailed := false, paragraphs := scenarioDext } =
        .ok r ∧
      (∀ h ∈ r.headings, 1 ≤ h.level) ∧
      List.Chain' (fun a b => b.level ≤ a.level + 1) r.headings :=
  heading_level_invariants.1 scenarioDext

/-! ## Harness theorems -/

/-- Each loop iteration of the harness returns normally. -/
theorem harnessStep_ok (acc : List (List String)) (env : FileEnv) :
    ∃ out, harnessStep acc env = Except.ok out := by
  unfold harnessStep
  cases env.fileExists <;> exact ⟨_, rfl⟩

/-- The harness loop returns normally from any accumulator. -/
theorem harness_foldlM_ok (envs : List FileEnv) (acc : List (List String)) :
    ∃ out, envs.foldlM harnessStep acc = Except.ok out := by
  induction envs generalizing acc with
  | nil => exact ⟨acc, rfl⟩
  | cons e t ih =>
    rw [List.foldlM_cons]
    obtain ⟨v, hv⟩ := harnessStep_ok acc e
    rw [hv]
    exact ih v

/-- C9: the harness function never propagates an exception to its caller —
the whole loop returns normally on every environment list; a missing file
is skipped with a message and the loop continues with the next file, and
an exception raised while parsing or analyzing one file is caught and
turned into an error message for that file alone. -/
theorem harness_never_propagates :
    (∀ envs : List FileEnv, ∃ out, test_word_numbering envs = Except.ok out) ∧
    (∀ (acc : List (List String)) (env : FileEnv), env.fileExists = false →
      harnessStep acc env = Except.ok (acc ++ [["文件不存在"]])) ∧
    (∀ (env : FileEnv) (msg : String), env.parseResult = .error (.exn msg) →
      processFile env = ["测试过程中出错: " ++ msg]) := by
  refine ⟨fun envs => harness_foldlM_ok envs [], ?_, ?_⟩
  · intro acc env he
    simp only [harnessStep, he, Bool.not_false, if_pos]
    rfl
  · intro env msg he
    simp only [processFile, processFileTry, he]
    rfl

/-- Witness for C9: a missing file and a file whose parse raises, in one
concrete run. -/
theorem harness_never_propagates_witness :
    (∃ out, test_word_numbering
        [{ fileExists := false, parseResult := .error (.exn "boom"),
           analyzeResult := .error (.exn "boom") },
         { fileExists := true, parseResult := .error (.exn "boom"),
           analyzeResult := .error (.exn "boom") }] = Except.ok out) ∧
    processFile
        { fileExists := true, parseResult := .error (.exn "boom"),
          analyzeResult := .error (.exn "boom") } = ["测试过程中出错: boom"] :=
  ⟨harness_never_propagates.1 _,
   harness_never_propagates.2.2
     { fileExists := true, parseResult := .error (.exn "boom"),
       analyzeResult := .error (.exn "boom") } "boom" rfl⟩

/-- Incrementing the stored count at one key leaves lookups at any other
key unchanged. -/
theorem find_map_increment (t : List (Int × Nat)) (x l : Int) (hne : x ≠ l) :
    List.find? (fun pr => pr.1 == l)
        (t.map (fun pr => if pr.1 == x then (pr.1, pr.2 + 1) else pr)) =
      List.find? (fun pr => pr.1 == l) t := by
  induction t with
  | nil => rfl
  | cons p t ih =>
    rw [List.map_cons]
    by_cases hp : p.1 = l
    · have hpx : (p.1 == x) = false := by
        rw [beq_eq_false_iff_ne, hp]
        exact Ne.symm hne
      have hhead : (if (p.1 == x) = true then (p.1, p.2 + 1) else p) = p := by
        rw [hpx]
        exact if_neg (by simp)
      have hpl : (p.1 == l) = true := beq_iff_eq.mpr hp
      rw [hhead]
      simp only [List.find?]
      rw [hpl]
    · have hpl : (p.1 == l) = false := by
        rw [beq_eq_false_iff_ne]
        exact hp
      have hkey : ((if (p.1 == x) = true then (p.1, p.2 + 1) else p).1 == l) = false := by
        by_cases hx : (p.1 == x) = true
        · rw [if_pos hx]
          exact hpl
        · rw [if_neg hx]
          exact hpl
      simp only [List.find?]
      rw [hpl, hkey]
      exact ih

/-- Incrementing the stored count at a present key raises its lookup by
exactly one. -/
theorem lookup_map_increment_self (acc : List (Int × Nat)) (x : Int)
    (hx : acc.any (fun pr => pr.1 == x) = true) :
    lookupCount
        (acc.map (fun pr => if pr.1 == x then (pr.1, pr.2 + 1) else pr)) x =
      lookupCount acc x + 1 := by
  induction acc with
  | nil => simp at hx
  | cons p t ih =>
    rw [List.map_cons]
    by_cases hp : p.1 = x
    · have hpx : (p.1 == x) = true := beq_iff_eq.mpr hp
      have hhead : (if (p.1 == x) = true then (p.1, p.2 + 1) else p) =
          (p.1, p.2 + 1) := by
        rw [hpx]
        exact if_pos rfl
      unfold lookupCount
      rw [hhead]
      simp only [List.find?]
      rw [hpx]
      rfl
    · have hx2 : t.any (fun pr => pr.1 == x) = true := by
        rcases List.any_eq_true.mp hx with ⟨q, hq, hqx⟩
        rcases List.mem_cons.mp hq with rfl | hq
        · exact absurd (beq_iff_eq.mp hqx) hp
        · exact List.any_eq_true.mpr ⟨q, hq, hqx⟩
      have hpx : (p.1 == x) = false := by
        rw [beq_eq_false_iff_ne]
        exact hp
      have hhead : (if (p.1 == x) = true then (p.1, p.2 + 1) else p) = p := by
        rw [hpx]
        exact if_neg (by simp)
      unfold lookupCount
      rw [hhead]
      simp only [List.find?]
      rw [hpx]
      exact ih hx2

/-- One dict update tallies exactly its own key. -/
theorem lookupCount_bumpCount (acc : List (Int × Nat)) (x l : Int) :
    lookupCount (bumpCount acc x) l =
      lookupCount acc l + (if x = l then 1 else 0) := by
  unfold bumpCount
  by_cases hmem : acc.any (fun pr => pr.1 == x) = true
  · rw [if_pos hmem]
    by_cases hxl : x = l
    · subst hxl
      rw [if_pos rfl, lookup_map_increment_self acc x hmem]
    · rw [if_neg hxl, Nat.add_zero]
      unfold lookupCount
      rw [find_map_increment acc x l hxl]
  · rw [if_neg hmem]
    have hnone : List.find? (fun pr => pr.1 == x) acc = none := by
      rw [List.find?_eq_none]
      intro p hp hb
      exact hmem (List.any_eq_true.mpr ⟨p, hp, hb⟩)
    by_cases hxl : x = l
    · subst hxl
      rw [if_pos rfl]
      simp [lookupCount, List.find?_append, hnone]
    · rw [if_neg hxl, Nat.add_zero]
      have h2 : List.find? (fun pr => pr.1 == l) [(x, 1)] = none := by
        simp [hxl]
      simp [lookupCount, List.find?_append, h2]

/-- The level-count dict built by the harness fold tallies each key by its
number of occurrences, from any starting dict. -/
theorem lookupCount_foldl (ls : List Int) (acc : List (Int × Nat)) (l : Int) :
    lookupCount (ls.foldl bumpCount acc) l =
      lookupCount acc l + ls.count l := by
  induction ls generalizing acc with
  | nil => simp
  | cons x t ih =>
    rw [List.foldl_cons, ih, lookupCount_bumpCount]
    by_cases hxl : x = l
    · subst hxl
      simp [List.count_cons]
      omega
    · simp [List.count_cons, hxl, Ne.symm hxl]

/-- C10: the harness display code is total over malformed analyzer
output — a heading dict lacking a level key is treated as level 0, given
no indent, and tallied under key 0 of the histogram dict (which tallies
each level by its occurrence count), and the maximum level of an empty
heading list is 0 by the explicit guard. -/
theorem harness_total_on_malformed :
    (∀ h : HeadingDict, h.level = none →
      headingLevelOf h = 0 ∧ indentFor (headingLevelOf h) = "") ∧
    (∀ (hs : List HeadingDict) (l : Int),
      lookupCount (harnessLevelCounts (harnessLevels hs)) l =
        (harnessLevels hs).count l) ∧
    harnessMaxLevel [] = 0 := by
  refine ⟨?_, ?_, rfl⟩
  · intro h hl
    constructor
    · simp [headingLevelOf, hl]
    · simp [headingLevelOf, hl, indentFor]
  · intro hs l
    unfold harnessLevelCounts
    rw [lookupCount_foldl]
    simp [lookupCount]

/-- Witness for C10: a heading dict with no level key contributes level 0,
no indent, and one tally under key 0. -/
theorem harness_total_on_malformed_witness :
    (headingLevelOf { level := none, title := none, numbering := none } = 0 ∧
      indentFor (headingLevelOf
        { level := none, title := none, numbering := none }) = "") ∧
    lookupCount (harnessLevelCounts (harnessLevels
        [{ level := none, title := none, numbering := none }])) 0 =
      (harnessLevels
        [{ level := none, title := none, numbering := none }]).count 0 :=
  ⟨harness_total_on_malformed.1
      { level := none, title := none, numbering := none } rfl,
    harness_total_on_malformed.2.1
      [{ level := none, title := none, numbering := none }] 0⟩

end Checker

